import Mathlib

/-!
Verification of the query-resolution and response-streaming pipeline of the
construction-capital-delivery repository.

The Python sources are shallowly embedded as executable Lean definitions:

* `src/copilot/backend/services/cortex_agent_client.py`
  (`run_agent_stream`, `_parse_sse_event`) — SSE stream decoding;
* `src/copilot/backend/agents/orchestrator.py`
  (`process_message`, `_classify_intent`, `_handle_cortex_analyst`,
  `_format_query_response`, `_extract_project_id`);
* `src/copilot/backend/services/snowflake_service_spcs.py`
  (`direct_sql_query`, `_execute_query_snowpark`, `_execute_query_cli`,
  `_parse_json_output`, `_reconnect_if_needed`).

Modelling conventions:

* Python strings are modelled as `List Char` (`String` at the boundaries);
  `str.lower` is `Char.toLower` (ASCII, matching CPython for ASCII input).
* Python floats are modelled as rationals (`ℚ`).  Every concrete float the
  claims mention (4250000.0, 0.972, 823.0, the thresholds 1e6/1e3/2 and the
  quotients 4.25, 823.0) is exactly representable as an IEEE double and the
  arithmetic on it is exact, so the rational model coincides with CPython
  float semantics on all inputs relevant to the claims.  `f"{x:.Nf}"`
  formatting is round-half-even on the exact value, as in CPython.
* `json.loads` is modelled by `parseJson`, a recursive-descent parser over
  the JSON value type `Json`; numbers keep their lexeme.
* External effects (SQL execution, the LLM call, the HTTP transport) are
  oracle parameters: a function or value supplying the outcome the remote
  system returned, so that the control flow around them is the code's.
-/

namespace CapitalDelivery

/-- Whitespace set of Python `str.strip()`. -/
def isPySpace (c : Char) : Bool :=
  c = ' ' || c = '\t' || c = '\n' || c = '\r' || c = '\x0b' || c = '\x0c'

/-- Python `str.strip()` on a character list. -/
def pyStrip (s : List Char) : List Char :=
  ((s.dropWhile isPySpace).reverse.dropWhile isPySpace).reverse

/-- Decidable check that `p` is a prefix of `s`. -/
def prefixOfC : List Char → List Char → Bool
  | [], _ => true
  | _ :: _, [] => false
  | p :: ps, c :: cs => p = c && prefixOfC ps cs

/-- Python `needle in haystack` for strings: substring containment. -/
def containsSub (needle : List Char) : List Char → Bool
  | [] => needle.isEmpty
  | c :: cs => prefixOfC needle (c :: cs) || containsSub needle cs

/-- Python `str.lower()` (ASCII case folding, as for all inputs here). -/
def lowerC (s : List Char) : List Char := s.map Char.toLower

/-- Substring test after lowering the haystack (the sources lower the
question/message once and then test with `in`). -/
def containsKw (needle : String) (haystackLower : List Char) : Bool :=
  containsSub needle.toList haystackLower

/-- Python `"\n\n" in buffer` (used by the SSE chunk loop). -/
def hasSep : List Char → Bool
  | [] => false
  | [_] => false
  | c1 :: c2 :: rest => (c1 = '\n' && c2 = '\n') || hasSep (c2 :: rest)

/-- Repeatedly split the buffer at the first `"\n\n"`, as the loop
`while "\n\n" in buffer: event_str, buffer = buffer.split("\n\n", 1)` in
`run_agent_stream` does; returns the complete frames in order and the
residual buffer. -/
def extract : List Char → List (List Char) × List Char
  | [] => ([], [])
  | [c] => ([], [c])
  | c1 :: c2 :: rest =>
    if c1 = '\n' && c2 = '\n' then
      (([] : List Char) :: (extract rest).1, (extract rest).2)
    else
      match extract (c2 :: rest) with
      | ([], r) => ([], c1 :: r)
      | (f :: fs, r) => ((c1 :: f) :: fs, r)

/-! JSON values, as produced by Python `json.loads`.  Numbers keep their
source lexeme (the normalization code never inspects numeric values, only
compares whole values for equality, which the lexeme preserves for the
payloads at issue).  Duplicate object keys are resolved by `jsonGet` taking
the last occurrence, as a Python dict built by `json.loads` would. -/
inductive Json where
  | null : Json
  | bool : Bool → Json
  | num : String → Json
  | str : String → Json
  | arr : List Json → Json
  | obj : List (String × Json) → Json

/-- Python `==` between a parsed JSON value and a string literal. -/
def jsonEqStr (v : Json) (s : String) : Bool :=
  match v with
  | Json.str t => t = s
  | _ => false

/-- Python dict lookup `data[k]` on a parsed JSON object (last write wins). -/
def jsonGet (fields : List (String × Json)) (k : String) : Option Json :=
  (fields.filter (fun kv => kv.1 = k)).getLast?.map (·.2)

/-- Python `k in data` for a parsed JSON object. -/
def jsonHas (fields : List (String × Json)) (k : String) : Bool :=
  (jsonGet fields k).isSome

/-- JSON whitespace skipping. -/
def skipWs (s : List Char) : List Char :=
  s.dropWhile (fun c => c = ' ' || c = '\t' || c = '\n' || c = '\r')

/-- Lex a JSON string body after the opening quote; handles the standard
escapes and `\uXXXX`. -/
def lexStr : Nat → List Char → Option (List Char × List Char)
  | 0, _ => none
  | _, [] => none
  | fuel + 1, c :: rest =>
    if c = '"' then some ([], rest)
    else if c = '\\' then
      match rest with
      | [] => none
      | e :: rest2 =>
        let cont (ch : Char) (tl : List Char) : Option (List Char × List Char) :=
          (lexStr fuel tl).map (fun p => (ch :: p.1, p.2))
        if e = '"' then cont '"' rest2
        else if e = '\\' then cont '\\' rest2
        else if e = '/' then cont '/' rest2
        else if e = 'n' then cont '\n' rest2
        else if e = 't' then cont '\t' rest2
        else if e = 'r' then cont '\r' rest2
        else if e = 'b' then cont '\x08' rest2
        else if e = 'f' then cont '\x0c' rest2
        else if e = 'u' then
          match rest2 with
          | h1 :: h2 :: h3 :: h4 :: rest3 =>
            let hv (c : Char) : Option Nat :=
              if c.isDigit then some (c.toNat - 48)
              else if 'a' ≤ c ∧ c ≤ 'f' then some (c.toNat - 87)
              else if 'A' ≤ c ∧ c ≤ 'F' then some (c.toNat - 55)
              else none
            match hv h1, hv h2, hv h3, hv h4 with
            | some a, some b, some c', some d =>
              cont (Char.ofNat (((a * 16 + b) * 16 + c') * 16 + d)) rest3
            | _, _, _, _ => none
          | _ => none
        else none
    else (lexStr fuel rest).map (fun p => (c :: p.1, p.2))

/-- Characters that may appear in a JSON number lexeme. -/
def isNumChar (c : Char) : Bool :=
  c.isDigit || c = '-' || c = '+' || c = '.' || c = 'e' || c = 'E'

mutual

/-- Fuel-indexed recursive-descent JSON value parser (models `json.loads`;
number lexing is slightly laxer than Python's grammar, which only affects
inputs no claim exercises). -/
def parseVal : Nat → List Char → Option (Json × List Char)
  | 0, _ => none
  | fuel + 1, s =>
    match skipWs s with
    | [] => none
    | '{' :: rest => parseObjFields fuel (skipWs rest) []
    | '[' :: rest => parseArrItems fuel (skipWs rest) []
    | '"' :: rest => (lexStr (rest.length + 1) rest).map
        (fun p => (Json.str (String.mk p.1), p.2))
    | 't' :: 'r' :: 'u' :: 'e' :: rest => some (Json.bool true, rest)
    | 'f' :: 'a' :: 'l' :: 's' :: 'e' :: rest => some (Json.bool false, rest)
    | 'n' :: 'u' :: 'l' :: 'l' :: rest => some (Json.null, rest)
    | c :: rest =>
      if c = '-' || c.isDigit then
        let lex := c :: (rest.takeWhile isNumChar)
        some (Json.num (String.mk lex), rest.dropWhile isNumChar)
      else none

/-- Parse the fields of a JSON object after the opening brace. -/
def parseObjFields : Nat → List Char → List (String × Json) →
    Option (Json × List Char)
  | 0, _, _ => none
  | fuel + 1, s, acc =>
    match skipWs s with
    | '}' :: rest => if acc.isEmpty then some (Json.obj [], rest) else none
    | '"' :: rest =>
      match lexStr (rest.length + 1) rest with
      | none => none
      | some (key, rest2) =>
        match skipWs rest2 with
        | ':' :: rest3 =>
          match parseVal fuel rest3 with
          | none => none
          | some (v, rest4) =>
            let acc2 := acc ++ [(String.mk key, v)]
            match skipWs rest4 with
            | ',' :: rest5 => parseObjFields fuel rest5 acc2
            | '}' :: rest5 => some (Json.obj acc2, rest5)
            | _ => none
        | _ => none
    | _ => none

/-- Parse the items of a JSON array after the opening bracket. -/
def parseArrItems : Nat → List Char → List Json → Option (Json × List Char)
  | 0, _, _ => none
  | fuel + 1, s, acc =>
    match skipWs s with
    | ']' :: rest => if acc.isEmpty then some (Json.arr [], rest) else none
    | s' =>
      match parseVal fuel s' with
      | none => none
      | some (v, rest) =>
        let acc2 := acc ++ [v]
        match skipWs rest with
        | ',' :: rest2 => parseArrItems fuel rest2 acc2
        | ']' :: rest2 => some (Json.arr acc2, rest2)
        | _ => none

end

/-- Model of `json.loads`: parse a complete JSON document, rejecting
trailing garbage (Python raises `JSONDecodeError` there, which the SSE
parser catches). -/
def parseJson (s : List Char) : Option Json :=
  match parseVal (s.length + 1) s with
  | none => none
  | some (v, rest) => if skipWs rest = [] then some v else none

mutual

/-- Python `repr()` of a value parsed from JSON (string escaping omitted:
no claim evaluates it on strings needing escapes). -/
def pyRepr : Json → String
  | Json.null => "None"
  | Json.bool true => "True"
  | Json.bool false => "False"
  | Json.num l => l
  | Json.str s => "\x27" ++ s ++ "\x27"
  | Json.arr xs => "[" ++ pyReprList xs ++ "]"
  | Json.obj fs => "\x7b" ++ pyReprFields fs ++ "\x7d"

/-- Comma-joined `repr`s of list items. -/
def pyReprList : List Json → String
  | [] => ""
  | [x] => pyRepr x
  | x :: xs => pyRepr x ++ ", " ++ pyReprList xs

/-- Comma-joined `repr`s of dict entries. -/
def pyReprFields : List (String × Json) → String
  | [] => ""
  | [kv] => "\x27" ++ kv.1 ++ "\x27: " ++ pyRepr kv.2
  | kv :: kvs => "\x27" ++ kv.1 ++ "\x27: " ++ pyRepr kv.2 ++ ", " ++ pyReprFields kvs

end

/-- Python `str()` of a value parsed from JSON (like `repr` except that a
top-level string prints unquoted). -/
def pyStr : Json → String
  | Json.str s => s
  | v => pyRepr v

/-! Model of `CortexAgentClient._parse_sse_event` and the SSE loop of
`run_agent_stream` (src/copilot/backend/services/cortex_agent_client.py). -/

/-- The event dict yielded to the caller: a `type` plus the optional keys
the parser fills in (`content`, `title`, `tool_use`, `sql`, `details`). -/
structure SseEvent where
  type : Json
  content : Option Json := none
  title : Option Json := none
  tool_use : Option Json := none
  sql : Option Json := none
  details : Option Json := none

/-- Python `event_str.split("\n")`. -/
def splitLines : List Char → List (List Char)
  | [] => [[]]
  | c :: rest =>
    if c = '\n' then [] :: splitLines rest
    else
      match splitLines rest with
      | [] => [[c]]
      | l :: ls => (c :: l) :: ls

/-- Python `"k" in xs` for a list parsed from JSON. -/
def pyInArr (xs : List Json) (k : String) : Bool :=
  xs.any (fun v => jsonEqStr v k)

/-- Collect `text_parts` from a content-block list exactly as the loops in
`_parse_sse_event` do: a dict block contributes its `"text"` value, a string
block contributes itself, anything else is skipped.  Returns `none` when a
dict block's `"text"` value is not a string — then the later
`"".join(text_parts)` raises `TypeError`, the outer `except` catches it and
the whole frame is dropped. -/
def flattenBlocks : List Json → Option (List String)
  | [] => some []
  | b :: bs =>
    match b with
    | Json.obj fs =>
      match jsonGet fs "text" with
      | some (Json.str t) => (flattenBlocks bs).map (fun p => t :: p)
      | some _ => none
      | none => flattenBlocks bs
    | Json.str t => (flattenBlocks bs).map (fun p => t :: p)
    | _ => flattenBlocks bs

/-- The if/elif pair on `delta.text` / `delta.content` at the head of the
`if "delta" in data:` branch of `_parse_sse_event`.  `none` models an
exception from `"".join(text_parts)` reaching the outer `except`. -/
def deltaTextContent (dfs : List (String × Json)) (r0 : SseEvent) :
    Option SseEvent :=
  match jsonGet dfs "text" with
  | some t => some { r0 with type := Json.str "text", content := some t }
  | none =>
    match jsonGet dfs "content" with
    | some (Json.arr blocks) =>
      match flattenBlocks blocks with
      | none => none
      | some parts =>
        if parts.isEmpty then some r0
        else some { r0 with
          type := Json.str "text"
          content := some (Json.str (String.join parts)) }
    | some (Json.str s) =>
      some { r0 with type := Json.str "text", content := some (Json.str s) }
    | some _ => some r0
    | none => some r0

/-- The `if "thinking" in delta:` block — a separate `if`, overwriting
whatever the text/content pair set. -/
def applyThinking (dfs : List (String × Json)) (r1 : SseEvent) : SseEvent :=
  match jsonGet dfs "thinking" with
  | some (Json.obj tfs) =>
    { r1 with
      type := Json.str "thinking"
      title := some ((jsonGet tfs "title").getD (Json.str "Processing"))
      content := some ((jsonGet tfs "content").getD (Json.str "")) }
  | some th =>
    { r1 with
      type := Json.str "thinking"
      title := some (Json.str "Processing")
      content := some (Json.str (pyStr th)) }
  | none => r1

/-- The `if "tool_use" in delta:` block — overwrites the type again. -/
def applyToolUse (dfs : List (String × Json)) (r2 : SseEvent) : SseEvent :=
  match jsonGet dfs "tool_use" with
  | some tu => { r2 with type := Json.str "tool_use", tool_use := some tu }
  | none => r2

/-- The `if "sql" in delta:` block — attaches the payload WITHOUT setting
the event type. -/
def applySql (dfs : List (String × Json)) (r3 : SseEvent) : SseEvent :=
  match jsonGet dfs "sql" with
  | some sq => { r3 with sql := some sq }
  | none => r3

/-- The `if "delta" in data:` branch of `_parse_sse_event`.  Note the shape:
`text`/`content` form an if/elif pair, but `thinking`, `tool_use` and `sql`
are *separate* `if`s executed afterwards, each overwriting `result`.
`none` models an exception reaching the outer `except` (frame dropped). -/
def normalizeDelta (r0 : SseEvent) (delta : Json) : Option SseEvent :=
  match delta with
  | Json.obj dfs =>
    match deltaTextContent dfs r0 with
    | none => none
    | some r1 => some (applySql dfs (applyToolUse dfs (applyThinking dfs r1)))
  | Json.arr xs =>
    if pyInArr xs "text" || pyInArr xs "content" || pyInArr xs "thinking"
        || pyInArr xs "tool_use" || pyInArr xs "sql" then
      none
    else some r0
  | Json.str s =>
    if containsSub "text".toList s.toList
        || containsSub "content".toList s.toList
        || containsSub "thinking".toList s.toList
        || containsSub "tool_use".toList s.toList
        || containsSub "sql".toList s.toList then
      none
    else some r0
  | _ => none

/-- Does the delta's `content` value avoid the `"".join` TypeError (it is
absent, not a list, or a list whose dict blocks carry string texts)?  Used
to state when a delta frame is not dropped. -/
def deltaContentFlattenOk (dfs : List (String × Json)) : Bool :=
  match jsonGet dfs "content" with
  | some (Json.arr blocks) => (flattenBlocks blocks).isSome
  | _ => true

/-- Does the `delta.content` elif set a Text event (a list with at least one
collected part, or a string)? -/
def deltaContentSetsText (dfs : List (String × Json)) : Bool :=
  match jsonGet dfs "content" with
  | some (Json.arr blocks) =>
    match flattenBlocks blocks with
    | some parts => !parts.isEmpty
    | none => false
  | some (Json.str _) => true
  | _ => false

/-- The `elif "content" in data:` branch (top-level content, no delta). -/
def topContent (r0 : SseEvent) (content : Json) : Option SseEvent :=
  match content with
  | Json.arr blocks =>
    match flattenBlocks blocks with
    | none => none
    | some parts =>
      some { r0 with
        type := Json.str "text"
        content := some (Json.str (String.join parts)) }
  | Json.str s =>
    some { r0 with type := Json.str "text", content := some (Json.str s) }
  | _ => some r0

/-- Payload normalization of `_parse_sse_event` after `data` is bound:
the `delta` / `content` / `type` / `text` elif chain. -/
def normalizeData (r0 : SseEvent) (data : Json) : Option SseEvent :=
  match data with
  | Json.obj fields =>
    match jsonGet fields "delta" with
    | some delta => normalizeDelta r0 delta
    | none =>
      match jsonGet fields "content" with
      | some content => topContent r0 content
      | none =>
        match jsonGet fields "type" with
        | some t =>
          if jsonEqStr t "message_start" then
            some { r0 with
              type := Json.str "thinking"
              title := some (Json.str "Planning")
              content := some (Json.str "Analyzing your question...") }
          else if jsonEqStr t "message_stop" then
            some { r0 with type := Json.str "done" }
          else some { r0 with type := t }
        | none =>
          match jsonGet fields "text" with
          | some t => some { r0 with type := Json.str "text", content := some t }
          | none => some r0
  | _ => some { r0 with content := some (Json.str (pyStr data)) }

/-- The line loop of `_parse_sse_event`: pick up `event:` and `data:` lines
(later lines overwrite earlier ones), short-circuiting on `data: [DONE]`;
then normalize the payload. -/
def parseFrameLines : List (List Char) → Option (List Char) → Option Json →
    Option SseEvent
  | [], et, d =>
    match d with
    | none => none
    | some data =>
      let t0 : Json :=
        match et with
        | some e => if e.isEmpty then Json.str "message" else Json.str (String.mk e)
        | none => Json.str "message"
      normalizeData { type := t0 } data
  | line :: rest, et, d =>
    if prefixOfC "event:".toList line then
      parseFrameLines rest (some (pyStrip (line.drop 6))) d
    else if prefixOfC "data:".toList line then
      let ds := pyStrip (line.drop 5)
      if ds = "[DONE]".toList then some { type := Json.str "done" }
      else
        parseFrameLines rest et
          (some ((parseJson ds).getD (Json.obj [("raw", Json.str (String.mk ds))])))
    else parseFrameLines rest et d

/-- Model of `CortexAgentClient._parse_sse_event`. -/
def parseSseFrame (frame : List Char) : Option SseEvent :=
  parseFrameLines (splitLines (pyStrip frame)) none none

/-- The `{"type": "done"}` event. -/
def doneEvent : SseEvent := { type := Json.str "done" }

/-- One chunk arriving in `run_agent_stream`: append to the buffer, then
extract and parse every complete (double-newline-terminated) frame. -/
def sseStep (st : List SseEvent × List Char) (chunk : List Char) :
    List SseEvent × List Char :=
  let p := extract (st.2 ++ chunk)
  (st.1 ++ p.1.filterMap parseSseFrame, p.2)

/-- The successful-connection path of `run_agent_stream`: fold the chunk
loop, flush a non-blank residual buffer through the parser, then yield the
final `{"type": "done"}`. -/
def decodeSse (chunks : List (List Char)) : List SseEvent :=
  let st := chunks.foldl sseStep ([], [])
  st.1 ++ (if (pyStrip st.2).isEmpty then [] else (parseSseFrame st.2).toList)
    ++ [doneEvent]

/-- Everything `decodeSse` yields before its final `done`. -/
def sseBodyEvents (chunks : List (List Char)) : List SseEvent :=
  let st := chunks.foldl sseStep ([], [])
  st.1 ++ (if (pyStrip st.2).isEmpty then [] else (parseSseFrame st.2).toList)

/-- The non-200-status path of `run_agent_stream`: exactly one error event
and no further output. -/
def decodeSseHttpError (status : Nat) (errorText : String) : List SseEvent :=
  [{ type := Json.str "error"
     content := some (Json.str ("Agent API error: " ++ toString status))
     details := some (Json.str errorText) }]

/-- Does this event terminate a stream (a `done` or an `error`)? -/
def isTerminal (e : SseEvent) : Bool :=
  jsonEqStr e.type "done" || jsonEqStr e.type "error"

/-- Number of terminal events in a stream. -/
def countTerminal (evs : List SseEvent) : Nat :=
  evs.countP isTerminal

/-! Model of the data rows flowing out of `execute_query` and into
`_format_query_response`.  A cell is a Python scalar; floats are rationals
(see the header notes). -/
inductive Cell where
  | null : Cell
  | bool : Bool → Cell
  | int : ℤ → Cell
  | float : ℚ → Cell
  | str : String → Cell
  | json : Json → Cell

/-- A result row: ordered column/value pairs, as the dicts built by
`_execute_query_snowpark` preserve column order. -/
def Row : Type := List (String × Cell)

/-- Python `row.get(col)` (first binding wins; rows never repeat keys). -/
def rowGet (row : Row) (col : String) : Option Cell :=
  (row.find? (fun kv => kv.1 = col)).map (·.2)

/-- Digit characters of a natural number (fuel-indexed so it reduces in the
kernel). -/
def natStrAux : Nat → Nat → List Char
  | 0, _ => []
  | _, 0 => []
  | fuel + 1, n => natStrAux fuel (n / 10) ++ [Char.ofNat (48 + n % 10)]

/-- Decimal rendering of a natural number. -/
def natStr (n : Nat) : String :=
  if n = 0 then "0" else String.mk (natStrAux (n + 1) n)

/-- Decimal rendering of an integer. -/
def intStr (n : ℤ) : String :=
  (if n < 0 then "-" else "") ++ natStr n.natAbs

/-- Round to the nearest integer, ties to even — the rounding CPython's
fixed-point float formatting performs on the exact value. -/
def roundHalfEven (q : ℚ) : ℤ :=
  if q - (⌊q⌋ : ℚ) < 1/2 then ⌊q⌋
  else if 1/2 < q - (⌊q⌋ : ℚ) then ⌊q⌋ + 1
  else if ⌊q⌋ % 2 = 0 then ⌊q⌋ else ⌊q⌋ + 1

/-- Left-pad a digit string with zeros to width `d`. -/
def padZeros (d : Nat) (s : String) : String :=
  if s.length < d then String.mk (List.replicate (d - s.length) '0') ++ s else s

/-- Digits assembly of fixed-point formatting once the scaled integer and
the sign are known. -/
def fmtFixedInt (scaled : ℤ) (neg : Bool) (d : Nat) : String :=
  let a := scaled.natAbs
  let sign := if neg then "-" else ""
  if d = 0 then sign ++ natStr a
  else sign ++ natStr (a / 10 ^ d) ++ "." ++ padZeros d (natStr (a % 10 ^ d))

/-- Python `f"{q:.df}"` on the exact value of the float: round-half-even at
`d` decimals.  The sign is the sign of the value, as CPython prints it. -/
def fmtFixed (q : ℚ) (d : Nat) : String :=
  fmtFixedInt (roundHalfEven (q * ((10 : ℚ) ^ d))) (decide (q < 0)) d

/-- Python `str()` of a non-float cell (floats never reach this: the float
branch of `_format_query_response` handles them first).  The float case is
an approximation of repr and is exercised by no claim. -/
def pyStrCell : Cell → String
  | Cell.null => "None"
  | Cell.bool true => "True"
  | Cell.bool false => "False"
  | Cell.int n => intStr n
  | Cell.float q => if q.den = 1 then intStr q.num ++ ".0" else fmtFixed q 6
  | Cell.str s => s
  | Cell.json v => pyStr v

/-- Python `s[:n]` (by codepoint, as for `str`). -/
def strTake (n : Nat) (s : String) : String :=
  String.mk (s.toList.take n)

/-- The per-cell rendering block of `_format_query_response` (orchestrator
lines 302–315): `None` → `-`; floats by magnitude bands; everything else
`str(val)[:35]`. -/
def formatCellValue : Cell → String
  | Cell.null => "-"
  | Cell.float q =>
    if 1000000 ≤ |q| then "$" ++ fmtFixed (q / 1000000) 1 ++ "M"
    else if 1000 ≤ |q| then "$" ++ fmtFixed (q / 1000) 0 ++ "K"
    else if |q| < 2 then fmtFixed q 3
    else fmtFixed q 0
  | v => strTake 35 (pyStrCell v)

/-- One table cell: `row.get(col)` then the rendering block (a missing key
gives Python `None`, rendered `-`). -/
def renderCell (row : Row) (col : String) : String :=
  match rowGet row col with
  | none => "-"
  | some v => formatCellValue v

/-- Python `str.title()` (ASCII). -/
def pyTitleAux : Bool → List Char → List Char
  | _, [] => []
  | prevAlpha, c :: rest =>
    (if c.isAlpha then (if prevAlpha then c.toLower else c.toUpper) else c)
      :: pyTitleAux c.isAlpha rest

/-- Python `col.replace('_', ' ').title()`. -/
def colTitle (s : String) : String :=
  String.mk (pyTitleAux false (s.toList.map (fun c => if c = '_' then ' ' else c)))

/-- Python `str.split()` (whitespace runs, no empty words). -/
def pyWordsAux : List Char → List Char → List (List Char)
  | cur, [] => if cur.isEmpty then [] else [cur.reverse]
  | cur, c :: rest =>
    if isPySpace c then
      if cur.isEmpty then pyWordsAux [] rest else cur.reverse :: pyWordsAux [] rest
    else pyWordsAux (c :: cur) rest

/-- Python `' '.join(s.split())`. -/
def collapseWs (s : String) : String :=
  String.intercalate " " ((pyWordsAux [] s.toList).map String.mk)

/-- Python `repr()` of a row dict (the `f"• {row}"` branch; approximate for
floats, exercised by no claim). -/
def pyReprRow (row : Row) : String :=
  "\x7b" ++ String.intercalate ", "
    (row.map (fun kv =>
      "\x27" ++ kv.1 ++ "\x27: " ++
        (match kv.2 with
         | Cell.str s => "\x27" ++ s ++ "\x27"
         | v => pyStrCell v)))
    ++ "\x7d"

/-- The markdown-table branch of `_format_query_response` (`len ≤ 20`).
Call sites guarantee a non-empty result list. -/
def tableBody (results : List Row) : List String :=
  match results with
  | [] => []
  | row1 :: _ =>
    let columns := row1.map (·.1)
    ("| " ++ String.intercalate " | " (columns.map colTitle) ++ " |")
      :: ("|" ++ String.intercalate "|" (List.replicate columns.length "---") ++ "|")
      :: results.map (fun row =>
          "| " ++ String.intercalate " | " (columns.map (renderCell row)) ++ " |")

/-- The `> 20` rows branch of `_format_query_response`. -/
def bigBody (results : List Row) : List String :=
  ("Found " ++ natStr results.length ++ " results. Showing first 20:\n")
    :: (results.take 20).map (fun row => "• " ++ pyReprRow row)

/-- The response dict built by the orchestrator's handlers. -/
structure Response where
  response : String
  sources : List String
  context : List (String × Json)
  intent : String
  visualization : Option String := none
  alert_level : Option String := none

/-- Model of `AgentOrchestrator._format_query_response`. -/
def format_query_response (results : List Row) (sql explanation source : String) :
    Response :=
  let parts1 : List String :=
    ["📊 **Query Results**\n"]
      ++ (if explanation = "" then [] else ["_" ++ explanation ++ "_\n"])
  let body : List String :=
    if results.length = 1 && (results.headD []).length = 1 then
      match results with
      | [(k, v) :: _] => ["**" ++ colTitle k ++ "**: " ++ pyStrCell v]
      | _ => []
    else if results.length ≤ 20 then tableBody results
    else bigBody results
  let parts2 := parts1 ++ body
    ++ ["\n✅ **Query Executed** | " ++ natStr results.length ++ " rows"]
  let parts3 := parts2
    ++ (if sql = "" then []
        else ["`" ++ strTake 100 (collapseWs sql) ++ "...`"])
  { response := String.intercalate "\n" parts3
    sources := [source, "CAPITAL_PROJECTS_DB"]
    context := [("sql", Json.str sql), ("row_count", Json.num (natStr results.length))]
    intent := "data_query" }

/-! Model of `SnowflakeServiceSPCS.direct_sql_query`: the if/elif catalog. -/

/-- The ten pattern rules of `direct_sql_query`, in declaration order. -/
inductive CatalogRule where
  | projectList | projectCount | portfolioSummary | overBudget | behindSchedule
  | vendorList | vendorMostCO | coCount | spendByProject | coByCategory
deriving DecidableEq, Repr

/-- Does one of the keywords occur in the lowered question
(`any(kw in question_lower for kw in [...])`)? -/
def anyKw (kws : List String) (ql : List Char) : Bool :=
  kws.any (fun k => containsKw k ql)

/-- The trigger condition of each rule, transcribed from the if/elif chain
of `direct_sql_query` (`ql` is the lowered question). -/
def ruleCond (r : CatalogRule) (ql : List Char) : Bool :=
  match r with
  | CatalogRule.projectList =>
    anyKw ["list", "name", "what are", "show me", "give me"] ql
      && containsKw "project" ql
  | CatalogRule.projectCount =>
    containsKw "how many" ql && containsKw "project" ql
  | CatalogRule.portfolioSummary =>
    anyKw ["summary", "overview", "portfolio", "total budget"] ql
  | CatalogRule.overBudget =>
    containsKw "over budget" ql
      || (containsKw "cpi" ql && anyKw ["below", "under", "low", "less"] ql)
  | CatalogRule.behindSchedule =>
    containsKw "behind schedule" ql
      || (containsKw "spi" ql && anyKw ["below", "under", "low", "less"] ql)
  | CatalogRule.vendorList =>
    anyKw ["list", "show", "what are"] ql && containsKw "vendor" ql
  | CatalogRule.vendorMostCO =>
    containsKw "vendor" ql
      && (containsKw "most" ql || containsKw "change order" ql)
  | CatalogRule.coCount =>
    containsKw "how many" ql && containsKw "change order" ql
  | CatalogRule.spendByProject =>
    (containsKw "spend" ql || containsKw "budget" ql) && containsKw "project" ql
  | CatalogRule.coByCategory =>
    containsKw "change order" ql
      && (containsKw "category" ql || containsKw "type" ql
          || containsKw "breakdown" ql)

/-- The rules in the declaration order of the if/elif chain. -/
def catalogRules : List CatalogRule :=
  [CatalogRule.projectList, CatalogRule.projectCount, CatalogRule.portfolioSummary,
   CatalogRule.overBudget, CatalogRule.behindSchedule, CatalogRule.vendorList,
   CatalogRule.vendorMostCO, CatalogRule.coCount, CatalogRule.spendByProject,
   CatalogRule.coByCategory]

/-- Each rule's SQL text, already `.strip()`ed as `direct_sql_query` returns
it; internal whitespace collapsed (its exact layout is immaterial: the SQL
string is an opaque token handed to the execution oracle). -/
def ruleSql (r : CatalogRule) : String :=
  match r with
  | CatalogRule.projectList =>
    "SELECT PROJECT_NAME, PROJECT_TYPE, CITY, STATE, ROUND(ORIGINAL_BUDGET/1000000, 1) as BUDGET_M, ROUND(CPI, 3) as CPI, ROUND(SPI, 3) as SPI, STATUS FROM CAPITAL_PROJECTS_DB.ATOMIC.PROJECT ORDER BY PROJECT_NAME"
  | CatalogRule.projectCount =>
    "SELECT COUNT(*) as PROJECT_COUNT FROM CAPITAL_PROJECTS_DB.ATOMIC.PROJECT"
  | CatalogRule.portfolioSummary =>
    "SELECT COUNT(*) as TOTAL_PROJECTS, ROUND(SUM(ORIGINAL_BUDGET)/1000000000, 2) as TOTAL_BUDGET_B, ROUND(AVG(CPI), 3) as AVG_CPI, ROUND(AVG(SPI), 3) as AVG_SPI, SUM(CASE WHEN CPI < 0.95 THEN 1 ELSE 0 END) as OVER_BUDGET_COUNT, SUM(CASE WHEN SPI < 0.95 THEN 1 ELSE 0 END) as BEHIND_SCHEDULE_COUNT FROM CAPITAL_PROJECTS_DB.ATOMIC.PROJECT"
  | CatalogRule.overBudget =>
    "SELECT PROJECT_NAME, ROUND(CPI, 3) as CPI, ROUND(SPI, 3) as SPI, ROUND(ORIGINAL_BUDGET/1000000, 1) as BUDGET_M FROM CAPITAL_PROJECTS_DB.ATOMIC.PROJECT WHERE CPI < 0.95 ORDER BY CPI ASC"
  | CatalogRule.behindSchedule =>
    "SELECT PROJECT_NAME, ROUND(SPI, 3) as SPI, ROUND(CPI, 3) as CPI, ROUND(ORIGINAL_BUDGET/1000000, 1) as BUDGET_M FROM CAPITAL_PROJECTS_DB.ATOMIC.PROJECT WHERE SPI < 0.95 ORDER BY SPI ASC"
  | CatalogRule.vendorList =>
    "SELECT VENDOR_NAME, TRADE_CATEGORY, RISK_SCORE, ROUND(ONTIME_DELIVERY_RATE * 100, 1) as ONTIME_PCT, ROUND(QUALITY_SCORE, 1) as QUALITY FROM CAPITAL_PROJECTS_DB.ATOMIC.VENDOR WHERE ACTIVE_FLAG = TRUE ORDER BY RISK_SCORE DESC"
  | CatalogRule.vendorMostCO =>
    "SELECT v.VENDOR_NAME, v.TRADE_CATEGORY, COUNT(co.CO_ID) as CO_COUNT, ROUND(SUM(co.APPROVED_AMOUNT)/1000, 1) as TOTAL_K FROM CAPITAL_PROJECTS_DB.ATOMIC.VENDOR v LEFT JOIN CAPITAL_PROJECTS_DB.ATOMIC.CHANGE_ORDER co ON v.VENDOR_ID = co.VENDOR_ID WHERE v.ACTIVE_FLAG = TRUE GROUP BY v.VENDOR_ID, v.VENDOR_NAME, v.TRADE_CATEGORY ORDER BY CO_COUNT DESC LIMIT 10"
  | CatalogRule.coCount =>
    "SELECT COUNT(*) as CO_COUNT FROM CAPITAL_PROJECTS_DB.ATOMIC.CHANGE_ORDER"
  | CatalogRule.spendByProject =>
    "SELECT PROJECT_NAME, ROUND(ORIGINAL_BUDGET/1000000, 1) as ORIGINAL_BUDGET_M, ROUND(CURRENT_BUDGET/1000000, 1) as CURRENT_BUDGET_M, ROUND((CURRENT_BUDGET - ORIGINAL_BUDGET)/1000000, 2) as VARIANCE_M FROM CAPITAL_PROJECTS_DB.ATOMIC.PROJECT ORDER BY ORIGINAL_BUDGET DESC"
  | CatalogRule.coByCategory =>
    "SELECT ML_CATEGORY, COUNT(*) as CO_COUNT, ROUND(SUM(APPROVED_AMOUNT)/1000, 1) as TOTAL_K, ROUND(AVG(ML_CONFIDENCE), 2) as AVG_CONFIDENCE FROM CAPITAL_PROJECTS_DB.ATOMIC.CHANGE_ORDER WHERE ML_CATEGORY IS NOT NULL GROUP BY ML_CATEGORY ORDER BY CO_COUNT DESC"

/-- The explanation attached to each rule. -/
def ruleExplanation (r : CatalogRule) : String :=
  match r with
  | CatalogRule.projectList => "Listing all projects with key metrics"
  | CatalogRule.projectCount => "Counting total projects"
  | CatalogRule.portfolioSummary => "Portfolio summary with key metrics"
  | CatalogRule.overBudget => "Projects with CPI below 0.95 (over budget)"
  | CatalogRule.behindSchedule => "Projects with SPI below 0.95 (behind schedule)"
  | CatalogRule.vendorList => "Listing all active vendors with risk scores"
  | CatalogRule.vendorMostCO => "Vendors ranked by number of change orders"
  | CatalogRule.coCount => "Total change order count"
  | CatalogRule.spendByProject => "Budget breakdown by project"
  | CatalogRule.coByCategory => "Change orders grouped by ML classification"

/-- The if/elif chain of `direct_sql_query`, selecting the first rule whose
condition holds on the lowered question. -/
def catalogMatch (q : String) : Option CatalogRule :=
  let ql := lowerC q.toList
  if ruleCond CatalogRule.projectList ql then some CatalogRule.projectList
  else if ruleCond CatalogRule.projectCount ql then some CatalogRule.projectCount
  else if ruleCond CatalogRule.portfolioSummary ql then some CatalogRule.portfolioSummary
  else if ruleCond CatalogRule.overBudget ql then some CatalogRule.overBudget
  else if ruleCond CatalogRule.behindSchedule ql then some CatalogRule.behindSchedule
  else if ruleCond CatalogRule.vendorList ql then some CatalogRule.vendorList
  else if ruleCond CatalogRule.vendorMostCO ql then some CatalogRule.vendorMostCO
  else if ruleCond CatalogRule.coCount ql then some CatalogRule.coCount
  else if ruleCond CatalogRule.spendByProject ql then some CatalogRule.spendByProject
  else if ruleCond CatalogRule.coByCategory ql then some CatalogRule.coByCategory
  else none

/-- Modelled from the spec: "a rule matches if all its trigger
keywords/phrases are present (case-insensitive substring test) in the
question".  Each rule's keyword/phrase set is the set of literals appearing
in its trigger condition; under the spec's reading all of them must occur.
This definition exists only to be compared with `catalogMatch`. -/
def specRuleKeywords (r : CatalogRule) : List String :=
  match r with
  | CatalogRule.projectList => ["list", "name", "what are", "show me", "give me", "project"]
  | CatalogRule.projectCount => ["how many", "project"]
  | CatalogRule.portfolioSummary => ["summary", "overview", "portfolio", "total budget"]
  | CatalogRule.overBudget => ["over budget", "cpi", "below", "under", "low", "less"]
  | CatalogRule.behindSchedule => ["behind schedule", "spi", "below", "under", "low", "less"]
  | CatalogRule.vendorList => ["list", "show", "what are", "vendor"]
  | CatalogRule.vendorMostCO => ["vendor", "most", "change order"]
  | CatalogRule.coCount => ["how many", "change order"]
  | CatalogRule.spendByProject => ["spend", "budget", "project"]
  | CatalogRule.coByCategory => ["change order", "category", "type", "breakdown"]

/-- Modelled from the spec: all-keywords-present matching (see
`specRuleKeywords`). -/
def specRuleMatches (r : CatalogRule) (q : String) : Bool :=
  (specRuleKeywords r).all (fun k => containsKw k (lowerC q.toList))

/-- The result dict of `direct_sql_query`.  `execute_query` in the same
service returns a list on every path and never raises (see
`execute_query_snowpark`/`execute_query_cli` below), so the `except` branch
around it is dead and the execution oracle is total. -/
structure DirectSqlResult where
  sql : Option String
  results : List Row
  explanation : String
  error : Option String

/-- Model of `SnowflakeServiceSPCS.direct_sql_query`; `exec` is the
`execute_query` oracle. -/
def direct_sql_query (q : String) (exec : String → List Row) : DirectSqlResult :=
  match catalogMatch q with
  | some r =>
    { sql := some (ruleSql r), results := exec (ruleSql r)
      explanation := ruleExplanation r, error := none }
  | none =>
    { sql := none, results := [], explanation := ""
      error := some "Could not understand the question" }

/-- The outcome of `cortex_analyst` (Tier 2), supplied as an oracle: the
method catches every internal exception and returns a dict of this shape. -/
structure Tier2Result where
  answer : Option String
  sql : Option String
  data : Option (List Row)
  error : Option String

/-- Which tier a produced answer came from. -/
inductive Tier where
  | pattern | llm
deriving DecidableEq, Repr

/-- The static suggestions returned when both tiers fail. -/
def fallbackResponse : Response :=
  { response :=
      "I couldn\x27t process that query. Here are some things I can answer:\n\n" ++
      "📊 **Projects**\n" ++
      "• \"List all projects\" or \"Show me the project names\"\n" ++
      "• \"Show me the portfolio summary\"\n" ++
      "• \"Which projects are over budget?\"\n" ++
      "• \"Which projects are behind schedule?\"\n\n" ++
      "💰 **Budget**\n" ++
      "• \"What is the total budget by project?\"\n" ++
      "• \"Show me the total spend per project\"\n\n" ++
      "👷 **Vendors**\n" ++
      "• \"List all vendors\"\n" ++
      "• \"Which vendor has the most change orders?\"\n\n" ++
      "📝 **Change Orders**\n" ++
      "• \"How many change orders are there?\"\n" ++
      "• \"Show change orders by category\""
    sources := ["ATLAS System"]
    context := []
    intent := "data_query" }

/-- Model of `AgentOrchestrator._handle_cortex_analyst`, additionally
returning the list of tiers whose SQL execution was performed (Tier 1's
oracle is consulted exactly when a catalog rule matched; Tier 2's exactly
when control reaches the `cortex_analyst` call). -/
def handle_cortex_analyst (q : String) (exec : String → List Row)
    (t2 : Tier2Result) : Response × List Tier :=
  let r1 := direct_sql_query q exec
  let trace1 := if (catalogMatch q).isSome then [Tier.pattern] else []
  if 0 < r1.results.length then
    (format_query_response r1.results (r1.sql.getD "") r1.explanation "Direct SQL",
      trace1)
  else
    let trace2 := trace1 ++ [Tier.llm]
    match t2.data with
    | some d =>
      if 0 < d.length then
        (format_query_response d (t2.sql.getD "") (t2.answer.getD "") "Cortex LLM",
          trace2)
      else (fallbackResponse, trace2)
    | none => (fallbackResponse, trace2)

/-! Model of `AgentOrchestrator.process_message`, `_classify_intent` and
`_extract_project_id`. -/

/-- Whitespace class of the `\s` regex escape. -/
def regexSpace (c : Char) : Bool :=
  c = ' ' || c = '\t' || c = '\n' || c = '\r' || c = '\x0b' || c = '\x0c'

/-- Does `a` followed by optional whitespace followed by `b` match at the
head of `s`?  (`re.search(a + r"\s*" + b, ...)` at one position; since `b`
starts with a letter, greedy whitespace munching is exact.) -/
def matchGapAt (a b : List Char) (s : List Char) : Bool :=
  prefixOfC a s && prefixOfC b ((s.drop a.length).dropWhile regexSpace)

/-- `re.search` of `a\s*b` anywhere in `s`. -/
def containsGap (a b : String) : List Char → Bool
  | [] => matchGapAt a.toList b.toList []
  | c :: rest => matchGapAt a.toList b.toList (c :: rest) || containsGap a b rest

/-- Model of `AgentOrchestrator._classify_intent`: the pattern-discovery
regex list against the lowered message, else `data_query`. -/
def classifyIntent (message : String) : String :=
  let ml := lowerC message.toList
  if containsKw "hidden" ml || containsKw "pattern" ml
      || containsGap "scope" "leakage" ml || containsGap "scope" "gap" ml
      || containsKw "grounding" ml || containsKw "systemic" ml
      || containsKw "recurring" ml then
    "hidden_discovery"
  else "data_query"

/-- Scan for the regex `PRJ-(\d+)` (case-insensitive), returning the digit
group of the leftmost match. -/
def findPrjDigits : List Char → Option (List Char)
  | [] => none
  | c :: rest =>
    if prefixOfC "prj-".toList (lowerC (c :: rest))
        && (match (c :: rest).drop 4 with
            | d :: _ => d.isDigit
            | [] => false) then
      some (((c :: rest).drop 4).takeWhile Char.isDigit)
    else findPrjDigits rest

/-- The static project-name → ID table of `_extract_project_id`, in
declaration (dict) order. -/
def project_names : List (String × String) :=
  [("downtown transit", "PRJ-001"), ("riverside substation", "PRJ-002"),
   ("airport terminal", "PRJ-003"), ("highway 101", "PRJ-004"),
   ("metro blue line", "PRJ-005"), ("harbor bridge", "PRJ-006"),
   ("central utility", "PRJ-007"), ("rail yard", "PRJ-008"),
   ("water treatment", "PRJ-009"), ("power substation", "PRJ-010"),
   ("transit center west", "PRJ-011"), ("tunnel boring", "PRJ-012")]

/-- Model of `AgentOrchestrator._extract_project_id`. -/
def extract_project_id (message : String) : Option String :=
  match findPrjDigits message.toList with
  | some ds => some ("PRJ-" ++ String.mk ds)
  | none =>
    let ml := lowerC message.toList
    (project_names.find? (fun nv => containsKw nv.1 ml)).map (·.2)

/-- The orchestrator's per-conversation context dict. -/
structure OrchestratorContext where
  current_project : Option String := none
  last_intent : Option String := none
  last_results : Option Response := none

/-- Model of `AgentOrchestrator.process_message`.  The dispatched handler's
outcome is the oracle `handler` (`Except.error e` models an exception with
message `e` raised by the downstream handler); the function returns the
response together with the mutated context. -/
def process_message (ctx : OrchestratorContext) (message : String)
    (project_id : Option String) (handler : Except String Response) :
    Response × OrchestratorContext :=
  let ctx1 :=
    match project_id with
    | some p => if p = "" then ctx else { ctx with current_project := some p }
    | none => ctx
  let intent := classifyIntent message
  let ctx2 := { ctx1 with last_intent := some intent }
  match handler with
  | Except.ok r => (r, { ctx2 with last_results := some r })
  | Except.error e =>
    ({ response := "I encountered an error: " ++ e
         ++ ". Please try rephrasing your question."
       sources := []
       context := []
       intent := intent }, ctx2)

/-! Model of `SnowflakeServiceSPCS` query execution
(`_execute_query_snowpark`, `_execute_query_cli`, `_parse_json_output`,
`_reconnect_if_needed`). -/

/-- Outcome of one remote SQL execution attempt (the oracle): either rows,
or an exception carrying its message. -/
inductive QueryOutcome where
  | ok : List Row → QueryOutcome
  | err : String → QueryOutcome

/-- Which connection the service holds when `_execute_query_snowpark`
runs. -/
inductive SpcsConn where
  | session | connector | noConn

/-- Model of `_reconnect_if_needed`: token-expiry detection on the error
message; `reconnectResult` is the outcome of `_init_connector_fallback`. -/
def reconnect_if_needed (msg : String) (reconnectResult : Bool) : Bool :=
  if containsSub "390114".toList msg.toList
      || (containsSub "token".toList (lowerC msg.toList)
          && containsSub "expired".toList (lowerC msg.toList)) then
    reconnectResult
  else false

/-- Model of `_execute_query_snowpark` (the date-to-isoformat conversion of
returned rows is identity here: cells are already scalars).  `try1` is the
outcome of the first execution, `try2` of the retry performed (with
`retry=False`) after a successful token-expiry reconnect. -/
def execute_query_snowpark (conn : SpcsConn) (try1 : QueryOutcome)
    (reconnectResult : Bool) (try2 : QueryOutcome) : List Row :=
  match conn with
  | SpcsConn.noConn => []
  | _ =>
    match try1 with
    | QueryOutcome.ok rows => rows
    | QueryOutcome.err msg =>
      if reconnect_if_needed msg reconnectResult then
        match try2 with
        | QueryOutcome.ok rows => rows
        | QueryOutcome.err _ => []
      else []

/-- Outcome of the `subprocess.run` of the `snow sql` CLI (the oracle). -/
inductive CliOutcome where
  | timeoutExpired : CliOutcome
  | exc : String → CliOutcome
  | completed : Int → String → CliOutcome

/-- The line scan of `_parse_json_output`: start collecting at the first
line whose strip starts with `[`, stop after the line whose strip ends with
`]`. -/
def collectJson : List (List Char) → Bool → List (List Char)
  | [], _ => []
  | l :: rest, inJson =>
    let st := pyStrip l
    let inJson2 := inJson || prefixOfC "[".toList st
    if inJson2 then
      if prefixOfC "]".toList st.reverse then [l]
      else l :: collectJson rest inJson2
    else collectJson rest inJson2

/-- Python `'\n'.join`. -/
def joinNl : List (List Char) → List Char
  | [] => []
  | [l] => l
  | l :: ls => l ++ '\n' :: joinNl ls

/-- Integer value of a digit run. -/
def digitsVal (l : List Char) : ℕ :=
  l.foldl (fun acc c => acc * 10 + (c.toNat - 48)) 0

/-- Numeric value of a JSON number lexeme (sign, integer part, optional
fraction, optional exponent). -/
def ratOfLex (l : List Char) : ℚ :=
  let (sgn, l1) : ℚ × List Char :=
    match l with
    | '-' :: rest => (-1, rest)
    | _ => (1, l)
  let ip := l1.takeWhile Char.isDigit
  let l2 := l1.drop ip.length
  let (fp, l3) : List Char × List Char :=
    match l2 with
    | '.' :: rest => (rest.takeWhile Char.isDigit, rest.dropWhile Char.isDigit)
    | _ => ([], l2)
  let ex : ℤ :=
    match l3 with
    | 'e' :: rest | 'E' :: rest =>
      match rest with
      | '-' :: ds => -(digitsVal (ds.takeWhile Char.isDigit) : ℤ)
      | '+' :: ds => (digitsVal (ds.takeWhile Char.isDigit) : ℤ)
      | ds => (digitsVal (ds.takeWhile Char.isDigit) : ℤ)
    | _ => 0
  sgn * ((digitsVal ip : ℚ) + (digitsVal fp : ℚ) / ((10 : ℚ) ^ fp.length))
    * ((10 : ℚ) ^ ex)

/-- A parsed JSON scalar as the Python value the CLI row would hold:
numbers with a fraction/exponent are floats, others ints. -/
def cellOfJson (v : Json) : Cell :=
  match v with
  | Json.null => Cell.null
  | Json.bool b => Cell.bool b
  | Json.str s => Cell.str s
  | Json.num lex =>
    if lex.toList.any (fun c => c = '.' || c = 'e' || c = 'E') then
      Cell.float (ratOfLex lex.toList)
    else
      Cell.int (match lex.toList with
        | '-' :: ds => -(digitsVal ds : ℤ)
        | ds => (digitsVal ds : ℤ))
  | v => Cell.json v

/-- Rows from the JSON document `json.loads` returned.  Python returns the
parsed value unchecked; callers require a list of objects, and the
never-observed other shapes are modelled as no rows. -/
def rowsOfJson (v : Json) : List Row :=
  match v with
  | Json.arr xs =>
    xs.map (fun x =>
      match x with
      | Json.obj fs => fs.map (fun kv => (kv.1, cellOfJson kv.2))
      | _ => ([] : Row))
  | _ => []

/-- Model of `_parse_json_output`. -/
def parse_json_output (output : String) : List Row :=
  if (collectJson (splitLines (pyStrip output.toList)) false).isEmpty then []
  else
    match parseJson (joinNl (collectJson (splitLines (pyStrip output.toList)) false)) with
    | none => []
    | some v => rowsOfJson v

/-- Model of `_execute_query_cli`. -/
def execute_query_cli (o : CliOutcome) : List Row :=
  match o with
  | CliOutcome.timeoutExpired => []
  | CliOutcome.exc _ => []
  | CliOutcome.completed rc out =>
    if rc ≠ 0 then [] else parse_json_output out

theorem extract_no_frames_residual :
    ∀ l : List Char, (extract l).1 = [] → (extract l).2 = l := by
  intro l
  induction l using extract.induct with
  | case1 => simp [extract]
  | case2 c => simp [extract]
  | case3 c1 c2 rest h ih => simp [extract, h]
  | case4 c1 c2 rest h r hq ih =>
    intro _
    have hr : r = c2 :: rest := by
      rw [hq] at ih
      exact ih rfl
    simp [extract, h, hq, hr]
  | case5 c1 c2 rest h f fs r hq ih =>
    simp [extract, h, hq]

theorem extract_of_no_sep :
    ∀ l : List Char, hasSep l = false → extract l = ([], l) := by
  intro l
  induction l using extract.induct with
  | case1 => simp [extract]
  | case2 c => simp [extract]
  | case3 c1 c2 rest h ih =>
    intro hs
    simp [hasSep, h] at hs
  | case4 c1 c2 rest h r hq ih =>
    intro hs
    have hs2 : hasSep (c2 :: rest) = false := by
      simpa [hasSep, h] using hs
    have h3 := ih hs2
    rw [hq] at h3
    simp at h3
    simp [extract, h, hq, h3]
  | case5 c1 c2 rest h f fs r hq ih =>
    intro hs
    have hs2 : hasSep (c2 :: rest) = false := by
      simpa [hasSep, h] using hs
    have h3 := ih hs2
    rw [hq] at h3
    simp at h3

theorem extract_residual_no_sep :
    ∀ l : List Char, hasSep (extract l).2 = false := by
  intro l
  induction l using extract.induct with
  | case1 => simp [extract, hasSep]
  | case2 c => simp [extract, hasSep]
  | case3 c1 c2 rest h ih =>
    simpa [extract, h] using ih
  | case4 c1 c2 rest h r hq ih =>
    have hr : r = c2 :: rest := by
      have h1 := extract_no_frames_residual (c2 :: rest)
      rw [hq] at h1
      exact h1 rfl
    have h2 : hasSep (c2 :: rest) = false := by
      rw [hq] at ih
      simpa [hr] using ih
    simp [extract, h, hq, hasSep, hr, h2]
  | case5 c1 c2 rest h f fs r hq ih =>
    rw [hq] at ih
    simpa [extract, h, hq] using ih

/-- Composition: extracting frames from `a ++ b` is the same as extracting
from `a`, carrying the residual into `b`, and extracting again.  This is the
heart of chunk-boundary invariance of the SSE loop. -/
theorem extract_append (a b : List Char) :
    extract (a ++ b) =
      ((extract a).1 ++ (extract ((extract a).2 ++ b)).1,
        (extract ((extract a).2 ++ b)).2) := by
  induction a using extract.induct with
  | case1 => simp [extract]
  | case2 c => simp [extract]
  | case3 c1 c2 rest h ih =>
    simp only [List.cons_append, extract, h, if_true, List.append_eq]
    rw [ih]
  | case4 c1 c2 rest h r hq ih =>
    have hr : r = c2 :: rest := by
      have h1 := extract_no_frames_residual (c2 :: rest)
      rw [hq] at h1
      exact h1 rfl
    subst hr
    have ha : extract (c1 :: c2 :: rest) = ([], c1 :: c2 :: rest) := by
      simp [extract, h, hq]
    rw [ha]
    simp
  | case5 c1 c2 rest h f fs r hq ih =>
    have ha : extract (c1 :: c2 :: rest) = ((c1 :: f) :: fs, r) := by
      simp [extract, h, hq]
    have ihb : extract (c2 :: (rest ++ b))
        = (f :: (fs ++ (extract (r ++ b)).1), (extract (r ++ b)).2) := by
      have h0 := ih
      rw [hq] at h0
      simpa using h0
    rw [ha]
    simp [List.cons_append, extract, h, ihb]

theorem sseFold_extract (chunks : List (List Char)) :
    ∀ (evs : List SseEvent) (r : List Char), hasSep r = false →
      chunks.foldl sseStep (evs, r) =
        (evs ++ (extract (r ++ chunks.flatten)).1.filterMap parseSseFrame,
          (extract (r ++ chunks.flatten)).2) := by
  induction chunks with
  | nil =>
    intro evs r hr
    simp [extract_of_no_sep r hr]
  | cons c cs ih =>
    intro evs r hr
    simp only [List.foldl_cons]
    rw [show sseStep (evs, r) c
        = (evs ++ (extract (r ++ c)).1.filterMap parseSseFrame, (extract (r ++ c)).2)
      from rfl]
    rw [ih _ _ (extract_residual_no_sep (r ++ c))]
    have hE := extract_append (r ++ c) cs.flatten
    rw [List.flatten_cons, ← List.append_assoc, hE]
    simp [List.filterMap_append, List.append_assoc]

theorem flatten_map_singleton (s : List Char) :
    (s.map (fun c => [c])).flatten = s := by
  induction s with
  | nil => rfl
  | cons c cs ih => simp [ih]

/-- Claim C1 counterexample: the byte stream consisting of the single frame
`data: [DONE]` makes `run_agent_stream` emit TWO terminal events — the
`done` parsed from the frame, then the unconditional trailing `done` — so
the emitted sequence does not terminate in exactly one terminal event. -/
theorem c1_counterexample :
    decodeSse ["data: [DONE]\n\n".toList] = [doneEvent, doneEvent] ∧
    countTerminal (decodeSse ["data: [DONE]\n\n".toList]) = 2 := by
  constructor
  · rfl
  · rfl

/-- Claim C1 (amended): on the successful-connection path the emitted
sequence always ends with the trailing `done` (so it never ends without a
terminal event), and its number of terminal events is one more than the
number of terminal events among the frame-parsed body events — so a body
frame decoding to `done`/`error` (such as `data: [DONE]` or a
`message_stop` payload) yields an additional terminal event rather than
being the unique one.  The non-200-status path emits exactly one terminal
`error` event. -/
theorem c1_stream_termination :
    (∀ chunks : List (List Char),
      decodeSse chunks = sseBodyEvents chunks ++ [doneEvent] ∧
      (decodeSse chunks).getLast? = some doneEvent ∧
      countTerminal (decodeSse chunks) = countTerminal (sseBodyEvents chunks) + 1) ∧
    (∀ status errText, countTerminal (decodeSseHttpError status errText) = 1) := by
  constructor
  · intro chunks
    refine ⟨rfl, ?_, ?_⟩
    · rw [show decodeSse chunks = sseBodyEvents chunks ++ [doneEvent] from rfl]
      simp
    · rw [show decodeSse chunks = sseBodyEvents chunks ++ [doneEvent] from rfl]
      unfold countTerminal
      rw [List.countP_append]
      rfl
  · intro status errText
    rfl

/-- Claim C5: SSE decoding is chunk-boundary invariant — delivering a
complete character stream as 1-character chunks produces the same event
sequence as delivering it whole. -/
theorem c5_chunk_invariance (s : List Char) :
    decodeSse (s.map (fun c => [c])) = decodeSse [s] := by
  unfold decodeSse
  have h1 := sseFold_extract (s.map fun c => [c]) [] [] rfl
  have h2 := sseFold_extract [s] [] [] rfl
  rw [h1, h2, flatten_map_singleton]
  simp

/-- Claim C7 counterexample: the frame `event: message_start` / `data: {}`
does NOT decode to a Thinking event — the empty JSON object has no
top-level `type` field, so the parser falls through to the generic
pass-through event labelled `message_start`, with no title and no
content. -/
theorem c7_counterexample :
    parseSseFrame "event: message_start\ndata: \x7b\x7d".toList
      = some { type := Json.str "message_start" } ∧
    Json.str "message_start" ≠ Json.str "thinking" := by
  constructor
  · rfl
  · simp

/-- Claim C7 (amended): the frame `event: message_start` / `data: {}`
decodes to exactly one event, the generic labelled event of type
`message_start`; the synthetic `Thinking{"Planning", "Analyzing your
question..."}` is produced when the JSON payload itself carries a top-level
`"type": "message_start"` field. -/
theorem c7_message_start_frame :
    parseSseFrame "event: message_start\ndata: \x7b\x7d".toList
      = some { type := Json.str "message_start" } ∧
    parseSseFrame "data: \x7b\"type\": \"message_start\"\x7d".toList
      = some { type := Json.str "thinking"
               title := some (Json.str "Planning")
               content := some (Json.str "Analyzing your question...") } := by
  constructor
  · rfl
  · rfl

theorem applySql_type_title (dfs : List (String × Json)) (r : SseEvent) :
    (applySql dfs r).type = r.type ∧ (applySql dfs r).title = r.title := by
  unfold applySql
  rcases jsonGet dfs "sql" with _ | v <;> simp

theorem applyToolUse_spec (dfs : List (String × Json)) (r : SseEvent) :
    (applyToolUse dfs r).type
        = (if jsonHas dfs "tool_use" then Json.str "tool_use" else r.type) ∧
      (applyToolUse dfs r).title = r.title := by
  unfold applyToolUse jsonHas
  rcases jsonGet dfs "tool_use" with _ | v <;> simp

theorem applyThinking_type (dfs : List (String × Json)) (r : SseEvent) :
    (applyThinking dfs r).type
      = (if jsonHas dfs "thinking" then Json.str "thinking" else r.type) := by
  unfold applyThinking jsonHas
  rcases h : jsonGet dfs "thinking" with _ | v
  · simp
  · cases v <;> simp

theorem applyThinking_title_default (dfs : List (String × Json)) (r : SseEvent)
    (tfs : List (String × Json))
    (h : jsonGet dfs "thinking" = some (Json.obj tfs))
    (h2 : jsonGet tfs "title" = none) :
    (applyThinking dfs r).title = some (Json.str "Processing") := by
  unfold applyThinking
  rw [h]
  simp [h2]

theorem deltaTextContent_spec (dfs : List (String × Json)) (r0 : SseEvent)
    (hok : deltaContentFlattenOk dfs = true) :
    ∃ r1, deltaTextContent dfs r0 = some r1 ∧
      r1.type = (if jsonHas dfs "text" then Json.str "text"
        else if deltaContentSetsText dfs then Json.str "text" else r0.type) ∧
      r1.title = r0.title := by
  rcases htext : jsonGet dfs "text" with _ | tv
  · rcases hc : jsonGet dfs "content" with _ | cv
    · exact ⟨r0, by simp [deltaTextContent, htext, hc],
        by simp [jsonHas, htext, deltaContentSetsText, hc], rfl⟩
    · cases cv with
      | arr blocks =>
        rcases hfb : flattenBlocks blocks with _ | parts
        · exfalso
          simp [deltaContentFlattenOk, hc, hfb] at hok
        · by_cases hp : parts.isEmpty
          · exact ⟨r0, by simp [deltaTextContent, htext, hc, hfb, hp],
              by simp [jsonHas, htext, deltaContentSetsText, hc, hfb, hp], rfl⟩
          · refine ⟨{ r0 with
                type := Json.str "text"
                content := some (Json.str (String.join parts)) },
              by simp [deltaTextContent, htext, hc, hfb, hp], ?_, rfl⟩
            simp [jsonHas, htext, deltaContentSetsText, hc, hfb, hp]
      | str s =>
        refine ⟨{ r0 with type := Json.str "text", content := some (Json.str s) },
          by simp [deltaTextContent, htext, hc], ?_, rfl⟩
        simp [jsonHas, htext, deltaContentSetsText, hc]
      | null =>
        exact ⟨r0, by simp [deltaTextContent, htext, hc],
          by simp [jsonHas, htext, deltaContentSetsText, hc], rfl⟩
      | bool b =>
        exact ⟨r0, by simp [deltaTextContent, htext, hc],
          by simp [jsonHas, htext, deltaContentSetsText, hc], rfl⟩
      | num n =>
        exact ⟨r0, by simp [deltaTextContent, htext, hc],
          by simp [jsonHas, htext, deltaContentSetsText, hc], rfl⟩
      | obj fs =>
        exact ⟨r0, by simp [deltaTextContent, htext, hc],
          by simp [jsonHas, htext, deltaContentSetsText, hc], rfl⟩
  · refine ⟨{ r0 with type := Json.str "text", content := some tv },
      by simp [deltaTextContent, htext], ?_, rfl⟩
    simp [jsonHas, htext]

/-- Claim C2 counterexample: a delta payload carrying BOTH a `text` and a
`thinking` field yields a Thinking event, not a Text event — the separate
`if "thinking" in delta:` block runs after the text match and overwrites the
event type. -/
theorem c2_counterexample :
    (normalizeData { type := Json.str "message" }
        (Json.obj [("delta",
          Json.obj [("text", Json.str "hi"), ("thinking", Json.str "t")])])).map
        (fun e => e.type)
      = some (Json.str "thinking") ∧
    Json.str "thinking" ≠ Json.str "text" := by
  constructor
  · rfl
  · simp

/-- Claim C2 (amended): for a delta object whose `content` field does not
trip the `"".join` TypeError, normalization succeeds and the event type is
decided with the LAST matching of the code's checks winning: `tool_use`
over `thinking` over `text` over `content`; within the if/elif text/content
pair, `text` wins over `content`.  The thinking title defaults to
`Processing` when the thinking dict has no `title` key.  (In particular a
delta with both `text` and `thinking` yields Thinking, not Text; and
`delta.sql` attaches its payload without selecting the ToolUse type.) -/
theorem c2_delta_precedence (dfs : List (String × Json)) (r0 : SseEvent)
    (hok : deltaContentFlattenOk dfs = true) :
    ∃ ev, normalizeDelta r0 (Json.obj dfs) = some ev ∧
      ev.type =
        (if jsonHas dfs "tool_use" then Json.str "tool_use"
         else if jsonHas dfs "thinking" then Json.str "thinking"
         else if jsonHas dfs "text" then Json.str "text"
         else if deltaContentSetsText dfs then Json.str "text"
         else r0.type) ∧
      (∀ tfs, jsonGet dfs "thinking" = some (Json.obj tfs) →
        jsonGet tfs "title" = none →
        ev.title = some (Json.str "Processing")) := by
  obtain ⟨r1, h1, ht1, _⟩ := deltaTextContent_spec dfs r0 hok
  refine ⟨applySql dfs (applyToolUse dfs (applyThinking dfs r1)), ?_, ?_, ?_⟩
  · simp [normalizeDelta, h1]
  · rw [(applySql_type_title _ _).1, (applyToolUse_spec _ _).1,
      applyThinking_type, ht1]
  · intro tfs hth htitle
    rw [(applySql_type_title _ _).2, (applyToolUse_spec _ _).2]
    exact applyThinking_title_default dfs r1 tfs hth htitle

/-- Witness for the amended C2 theorem at the counterexample's payload:
a delta with both `text` and `thinking` fields. -/
theorem c2_delta_precedence_witness :
    ∃ ev, normalizeDelta { type := Json.str "message" }
        (Json.obj [("text", Json.str "hi"), ("thinking", Json.str "t")])
      = some ev ∧
      ev.type =
        (if jsonHas [("text", Json.str "hi"), ("thinking", Json.str "t")] "tool_use"
         then Json.str "tool_use"
         else if jsonHas [("text", Json.str "hi"), ("thinking", Json.str "t")] "thinking"
         then Json.str "thinking"
         else if jsonHas [("text", Json.str "hi"), ("thinking", Json.str "t")] "text"
         then Json.str "text"
         else if deltaContentSetsText [("text", Json.str "hi"), ("thinking", Json.str "t")]
         then Json.str "text"
         else Json.str "message") ∧
      (∀ tfs, jsonGet [("text", Json.str "hi"), ("thinking", Json.str "t")] "thinking"
          = some (Json.obj tfs) →
        jsonGet tfs "title" = none →
        ev.title = some (Json.str "Processing")) :=
  c2_delta_precedence [("text", Json.str "hi"), ("thinking", Json.str "t")]
    { type := Json.str "message" } rfl

theorem format_query_response_sources (results : List Row)
    (sql expl source : String) :
    (format_query_response results sql expl source).sources
      = [source, "CAPITAL_PROJECTS_DB"] := rfl

/-- Claim C3: `_handle_cortex_analyst` answers from the Pattern tier exactly
when a catalog rule matched and executing that rule's SQL returned at least
one row; otherwise it escalates to the LLM tier and then to the static
fallback; Tier 2's SQL is never executed once Tier 1 yielded rows; and
exactly one response is produced (the function is total with a single
return value). -/
theorem c3_tier_escalation (q : String) (exec : String → List Row)
    (t2 : Tier2Result) :
    (((handle_cortex_analyst q exec t2).1.sources.headD "") = "Direct SQL" ↔
      ∃ r, catalogMatch q = some r ∧ exec (ruleSql r) ≠ []) ∧
    ((∃ r, catalogMatch q = some r ∧ exec (ruleSql r) ≠ []) →
      (handle_cortex_analyst q exec t2).2 = [Tier.pattern]) ∧
    ((¬ ∃ r, catalogMatch q = some r ∧ exec (ruleSql r) ≠ []) →
      (handle_cortex_analyst q exec t2).2 =
        (if (catalogMatch q).isSome then [Tier.pattern, Tier.llm] else [Tier.llm]) ∧
      (∀ d, t2.data = some d → d ≠ [] →
        ((handle_cortex_analyst q exec t2).1.sources.headD "") = "Cortex LLM") ∧
      (∀ d, t2.data = some d → d = [] →
        (handle_cortex_analyst q exec t2).1 = fallbackResponse) ∧
      (t2.data = none → (handle_cortex_analyst q exec t2).1 = fallbackResponse)) := by
  rcases hm : catalogMatch q with _ | r
  · -- no catalog match: Tier 1 is skipped, Tier 2 is consulted
    rcases hd : t2.data with _ | d
    · have hh : handle_cortex_analyst q exec t2 = (fallbackResponse, [Tier.llm]) := by
        simp [handle_cortex_analyst, direct_sql_query, hm, hd]
      rw [hh]
      refine ⟨by simp [fallbackResponse], by simp, fun _ => ⟨by simp, ?_, ?_, fun _ => rfl⟩⟩
      · intro d' hd' _
        simp at hd'
      · intro d' hd' _
        simp at hd'
    · by_cases hl : 0 < d.length
      · have hh : handle_cortex_analyst q exec t2 =
            (format_query_response d (t2.sql.getD "") (t2.answer.getD "")
              "Cortex LLM", [Tier.llm]) := by
          simp [handle_cortex_analyst, direct_sql_query, hm, hd, hl]
        rw [hh]
        refine ⟨by simp [format_query_response_sources], by simp,
          fun _ => ⟨by simp, ?_, ?_, by intro h; simp at h⟩⟩
        · intro d' hd' _
          cases hd'
          simp [format_query_response_sources]
        · intro d' hd' hnil
          cases hd'
          rw [hnil] at hl
          simp at hl
      · have hh : handle_cortex_analyst q exec t2 = (fallbackResponse, [Tier.llm]) := by
          simp [handle_cortex_analyst, direct_sql_query, hm, hd, hl]
        rw [hh]
        refine ⟨by simp [fallbackResponse], by simp,
          fun _ => ⟨by simp, ?_, ?_, by intro h; simp at h⟩⟩
        · intro d' hd' hne
          cases hd'
          exact absurd (List.length_pos.mpr hne) hl
        · intro d' hd' _
          cases hd'
          rfl
  · by_cases he : exec (ruleSql r) = []
    · -- matched but zero rows: escalate to Tier 2
      have hex : ¬ ∃ r', (some r : Option CatalogRule) = some r' ∧ exec (ruleSql r') ≠ [] := by
        rintro ⟨r', hr', hne⟩
        cases hr'
        exact hne he
      rcases hd : t2.data with _ | d
      · have hh : handle_cortex_analyst q exec t2 =
            (fallbackResponse, [Tier.pattern, Tier.llm]) := by
          simp [handle_cortex_analyst, direct_sql_query, hm, hd, he]
        rw [hh]
        refine ⟨by simp [fallbackResponse, he], fun h => absurd h hex,
          fun _ => ⟨by simp, ?_, ?_, fun _ => rfl⟩⟩
        · intro d' hd' _
          simp at hd'
        · intro d' hd' _
          simp at hd'
      · by_cases hl : 0 < d.length
        · have hh : handle_cortex_analyst q exec t2 =
              (format_query_response d (t2.sql.getD "") (t2.answer.getD "")
                "Cortex LLM", [Tier.pattern, Tier.llm]) := by
            simp [handle_cortex_analyst, direct_sql_query, hm, hd, he, hl]
          rw [hh]
          refine ⟨by simp [format_query_response_sources, he],
            fun h => absurd h hex,
            fun _ => ⟨by simp, ?_, ?_, by intro h; simp at h⟩⟩
          · intro d' hd' _
            cases hd'
            simp [format_query_response_sources]
          · intro d' hd' hnil
            cases hd'
            rw [hnil] at hl
            simp at hl
        · have hh : handle_cortex_analyst q exec t2 =
              (fallbackResponse, [Tier.pattern, Tier.llm]) := by
            simp [handle_cortex_analyst, direct_sql_query, hm, hd, he, hl]
          rw [hh]
          refine ⟨by simp [fallbackResponse, he], fun h => absurd h hex,
            fun _ => ⟨by simp, ?_, ?_, by intro h; simp at h⟩⟩
          · intro d' hd' hne
            cases hd'
            exact absurd (List.length_pos.mpr hne) hl
          · intro d' hd' _
            cases hd'
            rfl
    · -- matched with rows: Pattern-tier answer, Tier 2 never consulted
      have hh : handle_cortex_analyst q exec t2 =
          (format_query_response (exec (ruleSql r)) (ruleSql r)
            (ruleExplanation r) "Direct SQL", [Tier.pattern]) := by
        simp [handle_cortex_analyst, direct_sql_query, hm,
          List.length_pos.mpr he]
      rw [hh]
      refine ⟨?_, fun _ => rfl, fun h => absurd ⟨r, rfl, he⟩ h⟩
      simp [format_query_response_sources, he]

/-- Witness for the C3 theorem: the change-order-count question with an
execution oracle returning one row settles in the Pattern tier, and Tier
2 is never consulted. -/
theorem c3_tier_escalation_witness :
    (handle_cortex_analyst "how many change orders are there?"
      (fun _ => [[("CO_COUNT", Cell.int 870)]])
      ⟨none, none, none, none⟩).2 = [Tier.pattern] :=
  (c3_tier_escalation "how many change orders are there?"
      (fun _ => [[("CO_COUNT", Cell.int 870)]]) ⟨none, none, none, none⟩).2.1
    ⟨CatalogRule.coCount, rfl, by simp⟩

theorem roundHalfEven_intCast (n : ℤ) : roundHalfEven (n : ℚ) = n := by
  unfold roundHalfEven
  rw [Int.floor_intCast]
  norm_num

theorem roundHalfEven_int_add_half (n : ℤ) :
    roundHalfEven ((n : ℚ) + 1/2) = if n % 2 = 0 then n else n + 1 := by
  unfold roundHalfEven
  have hf : ⌊(n : ℚ) + 1/2⌋ = n := by
    rw [Int.floor_eq_iff]
    constructor
    · norm_num
    · norm_num
  rw [hf]
  have h2 : (n : ℚ) + 1/2 - (n : ℚ) = 1/2 := by ring
  rw [h2]
  norm_num

theorem fmtFixed_4250000_div : fmtFixed ((4250000 : ℚ) / 1000000) 1 = "4.2" := by
  unfold fmtFixed
  rw [show ((4250000 : ℚ) / 1000000) * (10 : ℚ) ^ (1 : ℕ) = ((42 : ℤ) : ℚ) + 1/2 by
      push_cast
      norm_num,
    roundHalfEven_int_add_half,
    if_pos (by decide : (42 : ℤ) % 2 = 0),
    decide_eq_false (by norm_num : ¬ ((4250000 : ℚ) / 1000000) < 0)]
  rfl

theorem formatCell_4250000 : formatCellValue (Cell.float 4250000) = "$4.2M" := by
  simp only [formatCellValue]
  rw [if_pos (by rw [abs_of_pos (by norm_num)]; norm_num :
        (1000000 : ℚ) ≤ |(4250000 : ℚ)|),
    fmtFixed_4250000_div]
  rfl

theorem formatCell_0972 : formatCellValue (Cell.float (972 / 1000)) = "0.972" := by
  simp only [formatCellValue]
  have habs : |((972 : ℚ) / 1000)| = 972 / 1000 := abs_of_pos (by norm_num)
  rw [if_neg (by rw [habs]; norm_num), if_neg (by rw [habs]; norm_num),
    if_pos (by rw [habs]; norm_num)]
  unfold fmtFixed
  rw [show ((972 : ℚ) / 1000) * (10 : ℚ) ^ (3 : ℕ) = ((972 : ℤ) : ℚ) by
      push_cast
      norm_num,
    roundHalfEven_intCast,
    decide_eq_false (by norm_num : ¬ ((972 : ℚ) / 1000) < 0)]
  rfl

theorem formatCell_823 : formatCellValue (Cell.float 823) = "823" := by
  simp only [formatCellValue]
  have habs : |(823 : ℚ)| = 823 := abs_of_pos (by norm_num)
  rw [if_neg (by rw [habs]; norm_num), if_neg (by rw [habs]; norm_num),
    if_neg (by rw [habs]; norm_num)]
  unfold fmtFixed
  rw [show (823 : ℚ) * (10 : ℚ) ^ (0 : ℕ) = ((823 : ℤ) : ℚ) by
      push_cast
      norm_num,
    roundHalfEven_intCast,
    decide_eq_false (by norm_num : ¬ (823 : ℚ) < 0)]
  rfl

/-- Claim C4 counterexample: the float cell 4250000.0 renders as `$4.2M`,
not `$4.3M` — CPython's fixed-point formatting rounds the exact quotient
4.25 half-to-even. -/
theorem c4_counterexample :
    formatCellValue (Cell.float 4250000) = "$4.2M" ∧
    formatCellValue (Cell.float 4250000) ≠ "$4.3M" := by
  refine ⟨formatCell_4250000, ?_⟩
  rw [formatCell_4250000]
  decide

/-- Claim C4 (amended): in rendered tables a float cell with `|v| ≥ 1e6`
renders as `$` + one-decimal millions + `M` (round-half-even, so 4250000.0
gives `$4.2M`), one in `[1e3, 1e6)` as `$XK`, one with `|v| < 2` with three
decimals (0.972 gives `0.972`), and all remaining floats integer-rounded
(823.0 gives `823`). -/
theorem c4_float_formatting :
    (∀ v : ℚ, 1000000 ≤ |v| →
      formatCellValue (Cell.float v) = "$" ++ fmtFixed (v / 1000000) 1 ++ "M") ∧
    (∀ v : ℚ, 1000 ≤ |v| → |v| < 1000000 →
      formatCellValue (Cell.float v) = "$" ++ fmtFixed (v / 1000) 0 ++ "K") ∧
    (∀ v : ℚ, |v| < 2 →
      formatCellValue (Cell.float v) = fmtFixed v 3) ∧
    (∀ v : ℚ, 2 ≤ |v| → |v| < 1000 →
      formatCellValue (Cell.float v) = fmtFixed v 0) ∧
    formatCellValue (Cell.float 4250000) = "$4.2M" ∧
    formatCellValue (Cell.float (972 / 1000)) = "0.972" ∧
    formatCellValue (Cell.float 823) = "823" := by
  refine ⟨?_, ?_, ?_, ?_, formatCell_4250000, formatCell_0972, formatCell_823⟩
  · intro v hv
    simp only [formatCellValue]
    rw [if_pos hv]
  · intro v h1 h2
    simp only [formatCellValue]
    rw [if_neg (not_le.mpr h2), if_pos h1]
  · intro v hv
    simp only [formatCellValue]
    rw [if_neg (not_le.mpr (by linarith)), if_neg (not_le.mpr (by linarith)),
      if_pos hv]
  · intro v h1 h2
    simp only [formatCellValue]
    rw [if_neg (not_le.mpr (by linarith)), if_neg (not_le.mpr h2),
      if_neg (not_lt.mpr h1)]

/-- Witness for the C4 theorem at the claim's own cell value. -/
theorem c4_float_formatting_witness :
    formatCellValue (Cell.float 4250000)
      = "$" ++ fmtFixed ((4250000 : ℚ) / 1000000) 1 ++ "M" :=
  c4_float_formatting.1 4250000
    (by rw [abs_of_pos (by norm_num)]; norm_num)

/-- Claim C6 counterexample: the question `list all projects` is matched by
the project-listing rule although not all of that rule's trigger keywords
occur in it (e.g. `name`, `what are`, `show me`, `give me` are absent) —
the rule's condition is a disjunction over alternatives, not a conjunction
of all keywords as the claim states. -/
theorem c6_counterexample :
    catalogMatch "list all projects" = some CatalogRule.projectList ∧
    specRuleMatches CatalogRule.projectList "list all projects" = false := by
  exact ⟨rfl, rfl⟩

/-- Claim C6 (amended): a rule matches when its own boolean trigger
condition holds (for most rules: at least one keyword of an alternatives
set occurs AND a required topic keyword occurs, all case-insensitive
substring tests); rules are tried in fixed declaration order with the first
match winning, and the first matching rule's SQL is the one executed. -/
theorem c6_first_match (q : String) (exec : String → List Row) :
    catalogMatch q = catalogRules.find? (fun r => ruleCond r (lowerC q.toList)) ∧
    (∀ r, catalogMatch q = some r →
      direct_sql_query q exec
        = ⟨some (ruleSql r), exec (ruleSql r), ruleExplanation r, none⟩) := by
  constructor
  · simp only [catalogMatch, catalogRules, List.find?]
    repeat' split <;> simp_all
  · intro r h
    unfold direct_sql_query
    rw [h]

/-- Witness for the C6 theorem: the project-listing rule's SQL is what the
matched question executes. -/
theorem c6_first_match_witness :
    direct_sql_query "list all projects" (fun _ => [])
      = ⟨some (ruleSql CatalogRule.projectList), [],
         ruleExplanation CatalogRule.projectList, none⟩ :=
  (c6_first_match "list all projects" (fun _ => [])).2 CatalogRule.projectList rfl

/-- Claim C8 counterexample: the message `Tell me about PRJ-001` carries a
resolvable project hint (`_extract_project_id` returns `PRJ-001`), yet
`process_message` with no explicit `project_id` argument leaves
`current_project` untouched — the router never consults the message text
for project hints. -/
theorem c8_counterexample :
    extract_project_id "Tell me about PRJ-001" = some "PRJ-001" ∧
    (process_message {} "Tell me about PRJ-001" none
        (Except.ok fallbackResponse)).2.current_project = none := by
  exact ⟨rfl, rfl⟩

/-- Claim C8 (amended): `process_message` updates
`sessionContext.current_project` only from its explicit non-empty
`project_id` argument; project hints in the message text (the `PRJ-`
pattern or the static name table, i.e. `_extract_project_id`) are not
consulted on the routing path. -/
theorem c8_current_project_update (ctx : OrchestratorContext)
    (message : String) (project_id : Option String)
    (handler : Except String Response) :
    (process_message ctx message project_id handler).2.current_project =
      (match project_id with
       | some p => if p = "" then ctx.current_project else some p
       | none => ctx.current_project) := by
  unfold process_message
  rcases project_id with _ | p
  · cases handler <;> simp
  · by_cases hp : p = "" <;> cases handler <;> simp [hp]

/-- Claim C9: routing never raises — any downstream handler exception is
converted into a user-visible error response that carries the originally
classified intent with empty sources and context, and a successful handler
result is passed through unchanged. -/
theorem c9_router_error_handling (ctx : OrchestratorContext)
    (message : String) (project_id : Option String) :
    (∀ e, (process_message ctx message project_id (Except.error e)).1 =
      { response := "I encountered an error: " ++ e
          ++ ". Please try rephrasing your question."
        sources := []
        context := []
        intent := classifyIntent message }) ∧
    (∀ r, (process_message ctx message project_id (Except.ok r)).1 = r) := by
  constructor <;> intro x <;> unfold process_message <;>
    rcases project_id with _ | p <;> simp

/-- Claim C10: query execution is total at the service boundary — every
failure path (no connection; an execution error, including one after the
single token-expiry reconnect attempt; CLI timeout; CLI exception; CLI
non-zero exit; empty or unparseable CLI JSON output) returns the empty
list, indistinguishable from a legitimately empty result set. -/
theorem c10_execute_query_total :
    (∀ t1 rOk t2, execute_query_snowpark SpcsConn.noConn t1 rOk t2 = []) ∧
    (∀ conn msg rOk msg2,
      execute_query_snowpark conn (QueryOutcome.err msg) rOk
        (QueryOutcome.err msg2) = []) ∧
    execute_query_cli CliOutcome.timeoutExpired = [] ∧
    (∀ m, execute_query_cli (CliOutcome.exc m) = []) ∧
    (∀ rc out, rc ≠ 0 → execute_query_cli (CliOutcome.completed rc out) = []) ∧
    (∀ out, collectJson (splitLines (pyStrip out.toList)) false = [] →
      execute_query_cli (CliOutcome.completed 0 out) = []) ∧
    (∀ out, parseJson (joinNl (collectJson (splitLines (pyStrip out.toList)) false))
        = none →
      execute_query_cli (CliOutcome.completed 0 out) = []) := by
  refine ⟨?_, ?_, rfl, ?_, ?_, ?_, ?_⟩
  · intro t1 rOk t2
    rfl
  · intro conn msg rOk msg2
    cases conn <;> simp [execute_query_snowpark]
  · intro m
    rfl
  · intro rc out h
    simp [execute_query_cli, h]
  · intro out h
    simp only [execute_query_cli]
    rw [if_neg (by decide : ¬ (0 : ℤ) ≠ 0)]
    unfold parse_json_output
    rw [h]
    simp
  · intro out h
    simp only [execute_query_cli]
    rw [if_neg (by decide : ¬ (0 : ℤ) ≠ 0)]
    unfold parse_json_output
    rw [h]
    simp

/-- Witness for the C10 theorem: a non-zero CLI exit and garbage CLI output
both yield the empty result list. -/
theorem c10_execute_query_total_witness :
    execute_query_cli (CliOutcome.completed 1 "x") = [] ∧
    execute_query_cli (CliOutcome.completed 0 "[oops") = [] :=
  ⟨c10_execute_query_total.2.2.2.2.1 1 "x" (by decide),
   c10_execute_query_total.2.2.2.2.2.2 "[oops" rfl⟩

end CapitalDelivery
